import Mathlib

/-!
Shallow embedding of `upload_video.py` (YouTube resumable-upload sample).

The interesting surface is `resumable_upload`: a retry/backoff loop that
repeatedly calls `insert_request.next_chunk()`, classifies each outcome,
and either continues, sleeps with randomized exponential backoff, or
terminates.  We embed the loop as a structurally recursive function over
the finite sequence of chunk outcomes the underlying session produces,
recording the observable events (prints, sleeps, exits) and the terminal
result.  Crucially, the embedding is faithful to the source: the Python
`error` local is set on a retriable failure and is NEVER reset to `None`
afterwards, so once a retriable failure has occurred every later loop
iteration re-enters the `if error is not None` block.

`initialize_upload` (request-body construction, keyword splitting) is
embedded as a pure function.  Sleep durations `random.random() * 2**retry`
are modelled over `ℚ` with the uniform draw as an explicit parameter
`r ∈ [0,1)`.
-/

namespace UploadVideo

/-- `MAX_RETRIES = 10` from upload_video.py line 18. -/
def MAX_RETRIES : Nat := 10

/-- `RETRIABLE_STATUS_CODES = [500, 502, 503, 504]` from upload_video.py line 20. -/
def RETRIABLE_STATUS_CODES : List Nat := [500, 502, 503, 504]

/-- Outcome of one `insert_request.next_chunk()` call, as seen by the
`try` block of `resumable_upload`:
* `progress`: the call returned `(status, None)` — bytes sent, not finished;
* `response id?`: the call returned a non-`None` response dict; `id?` is
  `some v` when the dict has an `"id"` key with value `v`, `none` otherwise;
* `httpError s`: the call raised `HttpError` with HTTP status `s`;
* `ioError`: the call raised one of `RETRIABLE_EXCEPTIONS`
  (`httplib2.HttpLib2Error`, `IOError`). -/
inductive ChunkOutcome where
  | progress
  | response (videoId : Option String)
  | httpError (status : Nat)
  | ioError
deriving DecidableEq

/-- Result of running the `try ... except` block of `resumable_upload`
(lines 78-92) on one chunk outcome:
* `cont setsError id?`: control falls through to the `if error is not None`
  block; `setsError` records whether this outcome assigned `error`, and
  `id?` is the video id when the response completed with an `"id"` key;
* `fatal s`: a non-retriable `HttpError` is re-raised (line 90);
* `unexpected`: `exit(...)` on a terminal response lacking `"id"` (line 85). -/
inductive TryStep where
  | cont (setsError : Bool) (videoId : Option String)
  | fatal (status : Nat)
  | unexpected
deriving DecidableEq

/-- The `try ... except` block of `resumable_upload` (lines 78-92). -/
def tryBlock : ChunkOutcome → TryStep
  | .progress => .cont false none
  | .response none => .unexpected
  | .response (some vid) => .cont false (some vid)
  | .httpError s =>
      if s ∈ RETRIABLE_STATUS_CODES then .cont true none else .fatal s
  | .ioError => .cont true none

/-- Observable events of a run of `resumable_upload`:
* `attempt`: the `print("Uploading file...")` before `next_chunk()` (line 79);
* `successPrint vid`: the `print("Video id ... was successfully uploaded.")`
  (line 83);
* `errorPrint`: the `print(error)` at the top of the error block (line 95);
* `sleep k`: `time.sleep(random.random() * 2**retry)` performed with the
  retry counter equal to `k` (lines 99-101) — the duration is
  `sleepSeconds r k` for that iteration's fresh uniform draw `r`;
* `exhaustedExit`: `exit("No longer attempting to retry.")` (line 98);
* `unexpectedExit`: `exit("The upload failed with an unexpected response...")`
  (line 85). -/
inductive Event where
  | attempt
  | successPrint (vid : String)
  | errorPrint
  | sleep (k : Nat)
  | exhaustedExit
  | unexpectedExit
deriving DecidableEq

/-- Terminal result of `resumable_upload`:
* `succeeded vid`: the `while response is None` loop exited normally after
  the video id was printed;
* `abortedFatal s`: a non-retriable `HttpError` with status `s` propagated
  out of the function (`raise`, line 90);
* `abortedUnexpected`: process exit on a terminal response without `"id"`;
* `abortedExhausted`: process exit on `retry > MAX_RETRIES`;
* `outOfOutcomes`: the (finite) modelled outcome stream ended while the
  loop was still running — a run on a stream that never became terminal. -/
inductive UploadResult where
  | succeeded (vid : String)
  | abortedFatal (status : Nat)
  | abortedUnexpected
  | abortedExhausted
  | outOfOutcomes
deriving DecidableEq

/-- A finished run: terminal result plus the ordered event trace. -/
structure RunResult where
  result : UploadResult
  events : List Event
deriving DecidableEq

/-- The `while response is None` loop of `resumable_upload` (lines 72-101),
parameterised by the remaining chunk outcomes, the current value of the
Python `error` local (`errSet = true` iff `error is not None`) and the
current `retry` counter.  Faithful to the source: `error` is assigned on
retriable failures and never reset, so `errSet` is monotone; when a
response with an id arrives while `errSet` is true, the success print
happens first and the error block still runs afterwards (possibly
exiting with retry exhaustion, or sleeping once more before the loop
condition finally fails). -/
def run : List ChunkOutcome → Bool → Nat → RunResult
  | [], _, _ => ⟨.outOfOutcomes, []⟩
  | o :: rest, errSet, retry =>
    match tryBlock o with
    | .fatal s => ⟨.abortedFatal s, [.attempt]⟩
    | .unexpected => ⟨.abortedUnexpected, [.attempt, .unexpectedExit]⟩
    | .cont sets resp =>
      let err := errSet || sets
      let pre : List Event :=
        match resp with
        | some vid => [.attempt, .successPrint vid]
        | none => [.attempt]
      if err then
        if retry + 1 > MAX_RETRIES then
          ⟨.abortedExhausted, pre ++ [.errorPrint, .exhaustedExit]⟩
        else
          match resp with
          | some vid => ⟨.succeeded vid, pre ++ [.errorPrint, .sleep (retry + 1)]⟩
          | none =>
            let rr := run rest err (retry + 1)
            ⟨rr.result, pre ++ [.errorPrint, .sleep (retry + 1)] ++ rr.events⟩
      else
        match resp with
        | some vid => ⟨.succeeded vid, pre⟩
        | none =>
          let rr := run rest err retry
          ⟨rr.result, pre ++ rr.events⟩

/-- `resumable_upload` entered with `response = None`, `error = None`,
`retry = 0` (lines 73-75). -/
def resumable_upload (outcomes : List ChunkOutcome) : RunResult :=
  run outcomes false 0

/-- `sleep_seconds = random.random() * (2 ** retry)` (line 99): the sleep
duration when the retry counter is `k` and the fresh uniform draw is `r`. -/
def sleepSeconds (r : ℚ) (k : Nat) : ℚ := r * 2 ^ k

/-- Python `str.split(",")` on the character list: split at every comma,
keeping empty components. -/
def splitCommaAux : List Char → List Char → List (List Char)
  | [], acc => [acc.reverse]
  | c :: cs, acc =>
      if c = ',' then acc.reverse :: splitCommaAux cs []
      else splitCommaAux cs (c :: acc)

/-- Python `s.split(",")` for a string `s` (naive comma split, empty
components preserved, no trimming). -/
def pySplitComma (s : String) : List String :=
  (splitCommaAux s.data []).map fun cs => String.mk cs

/-- The caller-supplied options consumed by `initialize_upload`
(argparse surface, lines 105-112). -/
structure Options where
  file : String
  title : String
  description : String
  category : String
  keywords : String
  privacyStatus : String
deriving DecidableEq

/-- The request `body` built by `initialize_upload` (lines 53-61):
`tags` is `none` when no tags key is populated. -/
structure RequestBody where
  title : String
  description : String
  tags : Option (List String)
  categoryId : String
  privacyStatus : String
deriving DecidableEq

/-- `initialize_upload` body construction (lines 50-61):
`tags = options.keywords.split(",") if options.keywords else None` —
the empty string is falsy in Python, so empty keywords yield no tags. -/
def initialize_upload (o : Options) : RequestBody :=
  ⟨o.title, o.description,
   (if o.keywords = "" then none else some (pySplitComma o.keywords)),
   o.category, o.privacyStatus⟩

end UploadVideo


namespace UploadVideo

/-- Every backoff sleep performed by the loop, from any starting state,
happens with a retry counter between 1 and `MAX_RETRIES`: the counter is
incremented before the ceiling test, and the sleep is only reached when
the incremented counter is `≤ MAX_RETRIES`. -/
theorem sleep_counter_bounds (outcomes : List ChunkOutcome) (e : Bool) (n k : Nat)
    (h : Event.sleep k ∈ (run outcomes e n).events) : 1 ≤ k ∧ k ≤ MAX_RETRIES := by
  induction outcomes generalizing e n with
  | nil => simp [run] at h
  | cons o rest ih =>
    cases ho : tryBlock o with
    | fatal s => simp [run, ho] at h
    | unexpected => simp [run, ho] at h
    | cont sets resp =>
      cases resp with
      | some vid =>
        by_cases hm : n + 1 > MAX_RETRIES
        · cases he : e || sets
          · simp [run, ho, he] at h
          · simp [run, ho, he, hm] at h
        · cases he : e || sets
          · simp [run, ho, he] at h
          · simp [run, ho, he, hm] at h
            unfold MAX_RETRIES at hm ⊢
            omega
      | none =>
        by_cases hm : n + 1 > MAX_RETRIES
        · cases he : e || sets
          · simp [run, ho, he] at h
            exact ih _ _ h
          · simp [run, ho, he, hm] at h
        · cases he : e || sets
          · simp [run, ho, he] at h
            exact ih _ _ h
          · simp [run, ho, he, hm] at h
            rcases h with h | h
            · unfold MAX_RETRIES at hm ⊢
              omega
            · exact ih _ _ h

/-- Claim C1: the spec invariant says the driver produces exactly one
terminal outcome and never reports both success and a failure for the same
upload.  The code violates this: because the `error` local is never reset,
ten retriable failures followed by a `Complete` response with an id make
the loop print the video-id success message and then exit with
"No longer attempting to retry."  This theorem evaluates the embedded loop
at that input: the terminal result is retry exhaustion, yet the success
print and the exhaustion exit both occur in the same run. -/
theorem C1_double_report_eval :
    (resumable_upload (List.replicate 10 ChunkOutcome.ioError ++
        [ChunkOutcome.response (some "vid")])).result = UploadResult.abortedExhausted
    ∧ Event.successPrint "vid" ∈ (resumable_upload (List.replicate 10 ChunkOutcome.ioError ++
        [ChunkOutcome.response (some "vid")])).events
    ∧ Event.exhaustedExit ∈ (resumable_upload (List.replicate 10 ChunkOutcome.ioError ++
        [ChunkOutcome.response (some "vid")])).events := by
  decide

/-- Claim C2: 11 consecutive retriable failures do abort with retry
exhaustion, and the exhaustion test is strictly-greater-than (10 failures
alone do not exhaust — the loop is still running when the stream ends).
But the claim's other half fails on the code: 10 retriable failures
followed by `Complete` with an id do NOT terminate in the succeeded state;
the stale `error` flag sends the loop into the error block once more,
where `retry` becomes 11 > `MAX_RETRIES` and the process exits with
"No longer attempting to retry." -/
theorem C2_boundary_eval :
    (resumable_upload (List.replicate 11 ChunkOutcome.ioError)).result =
        UploadResult.abortedExhausted
    ∧ (resumable_upload (List.replicate 10 ChunkOutcome.ioError)).result =
        UploadResult.outOfOutcomes
    ∧ (resumable_upload (List.replicate 10 ChunkOutcome.ioError ++
        [ChunkOutcome.response (some "v")])).result ≠ UploadResult.succeeded "v"
    ∧ (resumable_upload (List.replicate 10 ChunkOutcome.ioError ++
        [ChunkOutcome.response (some "v")])).result = UploadResult.abortedExhausted := by
  decide

/-- Claim C3: the spec says a `Progress` outcome never changes the retry
counter and never causes a backoff sleep, regardless of preceding
retriable failures.  The code violates this: after one retriable failure
the `error` local stays set, so the following `Progress` iteration prints
the stale error, increments `retry` from 1 to 2 and sleeps again.  The
full trace below shows `sleep 2` (and the second `errorPrint`) emitted at
the `Progress` step. -/
theorem C3_progress_sleeps_eval :
    resumable_upload [ChunkOutcome.ioError, ChunkOutcome.progress,
        ChunkOutcome.response (some "vid")] =
      ⟨UploadResult.succeeded "vid",
        [Event.attempt, Event.errorPrint, Event.sleep 1,
         Event.attempt, Event.errorPrint, Event.sleep 2,
         Event.attempt, Event.successPrint "vid", Event.errorPrint, Event.sleep 3]⟩
    ∧ Event.sleep 2 ∈ (resumable_upload [ChunkOutcome.ioError, ChunkOutcome.progress,
        ChunkOutcome.response (some "vid")]).events := by
  decide

/-- Claim C4: a non-retriable `HttpError` (status outside
`RETRIABLE_STATUS_CODES`) at any point, in any driver state (any `error`
flag, any retry count), terminates the loop immediately with the fatal
abort: the only event of the iteration is the attempt print — no backoff
sleep, no retry increment, no further chunk attempt (the rest of the
stream is never consumed). -/
theorem C4_fatal_immediate (s : Nat) (hs : s ∉ RETRIABLE_STATUS_CODES)
    (rest : List ChunkOutcome) (e : Bool) (n : Nat) :
    run (ChunkOutcome.httpError s :: rest) e n =
      ⟨UploadResult.abortedFatal s, [Event.attempt]⟩ := by
  have ho : tryBlock (ChunkOutcome.httpError s) = TryStep.fatal s := by
    simp [tryBlock, hs]
  simp [run, ho]

/-- Witness for C4: status 404 is not retriable; even with the error flag
set and retry count 7 and more outcomes pending, the loop aborts fatally
at once. -/
theorem C4_fatal_immediate_witness :
    (404 ∉ RETRIABLE_STATUS_CODES) ∧
    run [ChunkOutcome.httpError 404, ChunkOutcome.progress] true 7 =
      ⟨UploadResult.abortedFatal 404, [Event.attempt]⟩ :=
  ⟨by decide, C4_fatal_immediate 404 (by decide) [ChunkOutcome.progress] true 7⟩

/-- Claim C5: the try-block classifies an attempt as a retriable failure
(assigning `error` and falling into the backoff path) exactly when the
call raises a connection/IO-level error or the service reports HTTP
status 500, 502, 503 or 504; every `HttpError` with any other status is
re-raised (fatal), not caught by the retry path. -/
theorem C5_classification :
    (∀ s : Nat, tryBlock (ChunkOutcome.httpError s) = TryStep.cont true none ↔
        s = 500 ∨ s = 502 ∨ s = 503 ∨ s = 504)
    ∧ tryBlock ChunkOutcome.ioError = TryStep.cont true none
    ∧ (∀ s : Nat, s ∉ RETRIABLE_STATUS_CODES →
        tryBlock (ChunkOutcome.httpError s) = TryStep.fatal s) := by
  refine ⟨fun s => ?_, rfl, fun s hs => by simp [tryBlock, hs]⟩
  by_cases h : s ∈ RETRIABLE_STATUS_CODES
  · simp only [tryBlock, if_pos h, true_iff]
    simpa [RETRIABLE_STATUS_CODES] using h
  · simp only [tryBlock, if_neg h]
    constructor
    · intro hc
      exact absurd hc (by simp)
    · intro hd
      exact absurd (by simpa [RETRIABLE_STATUS_CODES] using hd) h

/-- Witness for C5: status 500 is classified retriable, status 404 fatal. -/
theorem C5_classification_witness :
    tryBlock (ChunkOutcome.httpError 500) = TryStep.cont true none ∧
    tryBlock (ChunkOutcome.httpError 404) = TryStep.fatal 404 :=
  ⟨(C5_classification.1 500).mpr (by decide), C5_classification.2.2 404 (by decide)⟩

/-- Claim C6: whenever the loop sleeps with the (incremented) retry
counter equal to `k`, the sleep duration is the fresh uniform draw `r`
multiplied by `2 ^ k`, hence lies in the half-open interval `[0, 2 ^ k)`. -/
theorem C6_backoff_formula (outcomes : List ChunkOutcome) (k : Nat) (r : ℚ)
    (hmem : Event.sleep k ∈ (resumable_upload outcomes).events)
    (h0 : 0 ≤ r) (h1 : r < 1) :
    sleepSeconds r k = r * 2 ^ k ∧ 0 ≤ sleepSeconds r k ∧ sleepSeconds r k < 2 ^ k := by
  unfold sleepSeconds
  refine ⟨rfl, mul_nonneg h0 (by positivity), ?_⟩
  calc r * 2 ^ k < 1 * 2 ^ k := by
        exact mul_lt_mul_of_pos_right h1 (by positivity)
    _ = 2 ^ k := one_mul _

/-- Witness for C6: the run with one retriable failure then a completed
response sleeps with counter 1; a draw of 1/2 gives a duration in `[0, 2)`. -/
theorem C6_backoff_formula_witness :
    Event.sleep 1 ∈ (resumable_upload
        [ChunkOutcome.ioError, ChunkOutcome.response (some "v")]).events ∧
    (sleepSeconds (1/2) 1 = (1/2) * 2 ^ 1 ∧ 0 ≤ sleepSeconds (1/2) 1 ∧
      sleepSeconds (1/2) 1 < 2 ^ 1) :=
  ⟨by decide,
   C6_backoff_formula [ChunkOutcome.ioError, ChunkOutcome.response (some "v")] 1 (1/2)
     (by decide) (by norm_num) (by norm_num)⟩

/-- Counterexample to claim C7: the claim puts the supremum of single
backoff sleeps just under `2 ^ 11` seconds.  In fact no run of the loop
ever sleeps for `2 ^ 10 = 1024` seconds or more: every sleep happens with
retry counter `k ≤ MAX_RETRIES = 10` and draw `r < 1`, so its duration
`r * 2 ^ k` is strictly below `1024`, far from approaching `2 ^ 11`. -/
theorem C7_counterexample :
    ¬ ∃ (outcomes : List ChunkOutcome) (k : Nat) (r : ℚ),
        Event.sleep k ∈ (resumable_upload outcomes).events ∧
        0 ≤ r ∧ r < 1 ∧ 1024 ≤ sleepSeconds r k := by
  rintro ⟨outcomes, k, r, hmem, h0, h1, hge⟩
  obtain ⟨-, hk⟩ := sleep_counter_bounds outcomes false 0 k
    (by simpa [resumable_upload] using hmem)
  have h2 : (2 : ℚ) ^ k ≤ 2 ^ 10 := by
    apply pow_le_pow_right₀ (by norm_num)
    simpa [MAX_RETRIES] using hk
  have hlt : sleepSeconds r k < 1024 := by
    unfold sleepSeconds
    calc r * 2 ^ k < 1 * 2 ^ k := mul_lt_mul_of_pos_right h1 (by positivity)
      _ = 2 ^ k := one_mul _
      _ ≤ 2 ^ 10 := h2
      _ = 1024 := by norm_num
  linarith

/-- Claim C7 amended: the maximum possible single backoff sleep is just
under `2 ^ 10` seconds (~17 minutes), at the retry ceiling `k = 10`:
every sleep the loop performs is strictly shorter than `2 ^ 10` seconds,
and durations arbitrarily close to `2 ^ 10` are attainable at counter 10
(the deepest counter at which a sleep occurs, reached before the 11th
retriable failure aborts the sequence). -/
theorem C7_max_sleep :
    (∀ (outcomes : List ChunkOutcome) (k : Nat) (r : ℚ),
        Event.sleep k ∈ (resumable_upload outcomes).events → 0 ≤ r → r < 1 →
        sleepSeconds r k < 2 ^ 10)
    ∧ (∀ c : ℚ, 0 ≤ c → c < 2 ^ 10 →
        ∃ (outcomes : List ChunkOutcome) (r : ℚ), 0 ≤ r ∧ r < 1 ∧
          Event.sleep 10 ∈ (resumable_upload outcomes).events ∧
          c < sleepSeconds r 10) := by
  constructor
  · intro outcomes k r hmem h0 h1
    obtain ⟨-, hk⟩ := sleep_counter_bounds outcomes false 0 k
      (by simpa [resumable_upload] using hmem)
    have h2 : (2 : ℚ) ^ k ≤ 2 ^ 10 := by
      apply pow_le_pow_right₀ (by norm_num)
      simpa [MAX_RETRIES] using hk
    unfold sleepSeconds
    calc r * 2 ^ k < 1 * 2 ^ k := mul_lt_mul_of_pos_right h1 (by positivity)
      _ = 2 ^ k := one_mul _
      _ ≤ 2 ^ 10 := h2
  · intro c hc0 hc1
    have hc : c < 1024 := by
      have : ((2 : ℚ) ^ 10) = 1024 := by norm_num
      linarith [hc1, this.le]
    refine ⟨List.replicate 10 ChunkOutcome.ioError, (c + 1024) / 2048,
      div_nonneg (by linarith) (by norm_num),
      (div_lt_one (by norm_num)).mpr (by linarith), by decide, ?_⟩
    have heq : sleepSeconds ((c + 1024) / 2048) 10 = (c + 1024) / 2 := by
      unfold sleepSeconds
      norm_num
      ring
    rw [heq]
    linarith

/-- Witness for C7 amended: at counter 10 a draw of 1/2 sleeps under
`2 ^ 10` seconds, and some run sleeps at counter 10 for more than 1000
seconds. -/
theorem C7_max_sleep_witness :
    sleepSeconds (1/2) 10 < 2 ^ 10 ∧
    (∃ (outcomes : List ChunkOutcome) (r : ℚ), 0 ≤ r ∧ r < 1 ∧
        Event.sleep 10 ∈ (resumable_upload outcomes).events ∧
        (1000 : ℚ) < sleepSeconds r 10) :=
  ⟨C7_max_sleep.1 (List.replicate 10 ChunkOutcome.ioError) 10 (1/2)
      (by decide) (by norm_num) (by norm_num),
   C7_max_sleep.2 1000 (by norm_num) (by norm_num)⟩

/-- Claim C8: a terminal-looking response without an `"id"` key makes the
loop exit immediately with the unexpected-response abort, in any driver
state: the run's only events are the attempt print and that exit — no
sleep, no retry, no success report — and the result is never the
succeeded state. -/
theorem C8_missing_id_fatal (rest : List ChunkOutcome) (e : Bool) (n : Nat) :
    run (ChunkOutcome.response none :: rest) e n =
      ⟨UploadResult.abortedUnexpected, [Event.attempt, Event.unexpectedExit]⟩ ∧
    ∀ vid, (run (ChunkOutcome.response none :: rest) e n).result ≠
      UploadResult.succeeded vid := by
  have h : run (ChunkOutcome.response none :: rest) e n =
      ⟨UploadResult.abortedUnexpected, [Event.attempt, Event.unexpectedExit]⟩ := rfl
  refine ⟨h, fun vid => ?_⟩
  rw [h]
  simp

/-- Claim C9: with empty keywords the request body carries no tags at all
(`tags = none`, not a single empty-string tag) and the privacy status is
the caller-supplied `"unlisted"`; keywords `"a,b,c"` produce the ordered
tags `["a", "b", "c"]`; and for every options record the body's privacy
status equals the caller-supplied one. -/
theorem C9_request_body :
    (initialize_upload ⟨"clip.mp4", "Demo", "Test Description", "22", "",
        "unlisted"⟩).tags = none
    ∧ (initialize_upload ⟨"clip.mp4", "Demo", "Test Description", "22", "",
        "unlisted"⟩).privacyStatus = "unlisted"
    ∧ (initialize_upload ⟨"clip.mp4", "Demo", "Test Description", "22", "a,b,c",
        "unlisted"⟩).tags = some ["a", "b", "c"]
    ∧ ∀ o : Options, (initialize_upload o).privacyStatus = o.privacyStatus :=
  ⟨by decide, by decide, by decide, fun o => rfl⟩

/-- Claim C10: for non-empty keywords the tags are exactly the naive
comma-split with empty components preserved and no trimming:
`"a,b,"` yields `["a", "b", ""]` and `"a,,b"` yields `["a", "", "b"]`,
each containing an empty-string tag. -/
theorem C10_naive_split (o : Options) (h : o.keywords ≠ "") :
    (initialize_upload o).tags = some (pySplitComma o.keywords)
    ∧ pySplitComma "a,b," = ["a", "b", ""]
    ∧ pySplitComma "a,,b" = ["a", "", "b"]
    ∧ "" ∈ pySplitComma "a,b," ∧ "" ∈ pySplitComma "a,,b" := by
  refine ⟨?_, by decide, by decide, by decide, by decide⟩
  simp [initialize_upload, h]

/-- Witness for C10: the keywords string `"a,b,"` is non-empty and its
body tags are its naive comma-split, with the documented empty-component
examples. -/
theorem C10_naive_split_witness :
    ("a,b," : String) ≠ "" ∧
    ((initialize_upload ⟨"f", "t", "d", "22", "a,b,", "public"⟩).tags =
        some (pySplitComma "a,b,")
      ∧ pySplitComma "a,b," = ["a", "b", ""]
      ∧ pySplitComma "a,,b" = ["a", "", "b"]
      ∧ "" ∈ pySplitComma "a,b," ∧ "" ∈ pySplitComma "a,,b") :=
  ⟨by decide, C10_naive_split ⟨"f", "t", "d", "22", "a,b,", "public"⟩ (by decide)⟩

end UploadVideo
